import Mathlib

/-!
Shallow embedding of the Millis AI bridge (MCP server repository).

The repository has three parts:
  * `agent-database.js` — a MongoDB-backed store of Agent records
    (`connectDB` / `getDB` / `closeDB` and the `Agents` collection
    operations `upsert`, `getByAgentId`, `getByPhoneNumber`,
    `getAllActive`, `getAll`, `delete`, `toggleStatus`);
  * an Express HTTP facade (routes `/api/get-agent-prompt`,
    `/api/availability`, `/api/doctors`, `/api/book-appointment`,
    `/api/cancel-appointment`, `/api/create-agent`, `/api/agents`);
  * an MCP tool facade (tools `create_agent`, `get_agent_by_phone`,
    `delete_agent`, `find_patient_appointments`, ...).

The store is modelled as a `List Agent`; MongoDB's `updateOne`
(`$set` / `$setOnInsert`, `upsert: true`), `findOne`, `deleteOne` act on
the first matching record.  JavaScript `undefined`/missing string fields
are modelled as `Option String` (`none` = undefined/null), with JS
truthiness `jtruthy` and template interpolation `jshow`.  Outbound
`fetch` calls are modelled by oracles passed as parameters; a `fetch`
(or `response.json()`) that throws is modelled by an error constructor.
-/

/-- JS truthiness of a possibly-undefined string: `undefined` and the
empty string are falsy. -/
def jtruthy : Option String → Bool
  | none => false
  | some s => s != ""

/-- JS template interpolation of a possibly-undefined string
(`${x}` prints `undefined` when `x` is undefined). -/
def jshow : Option String → String
  | none => "undefined"
  | some s => s

/-- `str.replace(/\D/g, '')`: keep only the decimal digits. -/
def digitsOnly (s : String) : String :=
  String.mk (s.data.filter Char.isDigit)

/-- An Agent record as stored in the `agents` collection. -/
structure Agent where
  agentId : Option String
  agentName : Option String
  phoneNumber : Option String
  agentPrompt : Option String
  active : Bool
  metadata : List (String × String)
  createdAt : Nat
  updatedAt : Nat
deriving DecidableEq, Repr

/-- The non-timestamp fields handed to `Agents.upsert`
(the `agentData` argument destructured as `{ agentId, ...data }`). -/
structure AgentData where
  agentId : Option String
  agentName : Option String
  phoneNumber : Option String
  agentPrompt : Option String
  active : Bool
  metadata : List (String × String)
deriving DecidableEq, Repr

/-- The record inserted by `updateOne(..., { upsert: true })` when no
record matches: the filter field `agentId`, the `$set` fields (including
`updatedAt`) and the `$setOnInsert` field `createdAt`. -/
def newAgent (d : AgentData) (now : Nat) : Agent :=
  { agentId := d.agentId
    agentName := d.agentName
    phoneNumber := d.phoneNumber
    agentPrompt := d.agentPrompt
    active := d.active
    metadata := d.metadata
    createdAt := now
    updatedAt := now }

/-- The effect of the `$set` document on an existing record: every
field of `data` plus `updatedAt` is overwritten; `createdAt` (only in
`$setOnInsert`) and the key `agentId` are untouched. -/
def applyUpsert (a : Agent) (d : AgentData) (now : Nat) : Agent :=
  { a with
    agentName := d.agentName
    phoneNumber := d.phoneNumber
    agentPrompt := d.agentPrompt
    active := d.active
    metadata := d.metadata
    updatedAt := now }

namespace Agents

/-- `Agents.upsert`: `updateOne({ agentId }, { $set: {...data, updatedAt},
$setOnInsert: { createdAt } }, { upsert: true })`.  Updates the first
record whose `agentId` matches, otherwise inserts `newAgent`.  Returns
the new store together with the result's `upsertedCount`. -/
def upsert : List Agent → AgentData → Nat → List Agent × Nat
  | [], d, now => ([newAgent d now], 1)
  | a :: rest, d, now =>
    if a.agentId = d.agentId then
      (applyUpsert a d now :: rest, 0)
    else
      let p := upsert rest d now
      (a :: p.1, p.2)

/-- `Agents.getByAgentId`: `findOne({ agentId })`. -/
def getByAgentId (store : List Agent) (agentId : Option String) : Option Agent :=
  store.find? (fun a => a.agentId == agentId)

/-- `Agents.getByPhoneNumber`: `findOne({ phoneNumber })`. -/
def getByPhoneNumber (store : List Agent) (phoneNumber : Option String) : Option Agent :=
  store.find? (fun a => a.phoneNumber == phoneNumber)

/-- `Agents.getAllActive`: `find({ active: true }).toArray()`. -/
def getAllActive (store : List Agent) : List Agent :=
  store.filter (fun a => a.active)

/-- `Agents.getAll`: `find().skip(skip).limit(limit)` plus
`countDocuments()`. -/
def getAll (store : List Agent) (skip : Nat := 0) (limit : Nat := 50) :
    List Agent × Nat :=
  ((store.drop skip).take limit, store.length)

/-- `Agents.delete`: `deleteOne({ agentId })` — removes the first
matching record; returns the new store and the result's
`deletedCount`. -/
def delete : List Agent → Option String → List Agent × Nat
  | [], _ => ([], 0)
  | a :: rest, i =>
    if a.agentId = i then
      (rest, 1)
    else
      let p := delete rest i
      (a :: p.1, p.2)

/-- `Agents.toggleStatus`: `updateOne({ agentId },
{ $set: { active, updatedAt } })` — updates the first matching record;
returns the new store and the result's `matchedCount`. -/
def toggleStatus : List Agent → Option String → Bool → Nat → List Agent × Nat
  | [], _, _, _ => ([], 0)
  | a :: rest, i, act, now =>
    if a.agentId = i then
      ({ a with active := act, updatedAt := now } :: rest, 1)
    else
      let p := toggleStatus rest i act now
      (a :: p.1, p.2)

end Agents

/-- Claim C8: `getAllActive` returns exactly the records with
`active == true` and never a record with `active == false`. -/
theorem getAllActive_exactly_active (s : List Agent) (a : Agent) :
    a ∈ Agents.getAllActive s ↔ a ∈ s ∧ a.active = true := by
  simp [Agents.getAllActive, List.mem_filter]

/-- Claim C4: upsert is keyed by `agentId`: on a fresh `agentId` it
inserts the record with `createdAt` (and `updatedAt`) set to now; on an
existing `agentId` it overwrites all other fields, refreshes
`updatedAt` and leaves `createdAt` (and the key) unchanged. -/
theorem upsert_keyed_by_agentId (s : List Agent) (d : AgentData) (now : Nat) :
    ((∀ a ∈ s, a.agentId ≠ d.agentId) →
      Agents.upsert s d now = (s ++ [newAgent d now], 1) ∧
      (newAgent d now).createdAt = now ∧ (newAgent d now).updatedAt = now) ∧
    (∀ l a r, s = l ++ a :: r → (∀ b ∈ l, b.agentId ≠ d.agentId) →
      a.agentId = d.agentId →
      Agents.upsert s d now = (l ++ applyUpsert a d now :: r, 0) ∧
      (applyUpsert a d now).createdAt = a.createdAt ∧
      (applyUpsert a d now).updatedAt = now ∧
      (applyUpsert a d now).agentId = a.agentId ∧
      (applyUpsert a d now).agentName = d.agentName ∧
      (applyUpsert a d now).phoneNumber = d.phoneNumber ∧
      (applyUpsert a d now).agentPrompt = d.agentPrompt ∧
      (applyUpsert a d now).active = d.active ∧
      (applyUpsert a d now).metadata = d.metadata) := by
  constructor
  · intro hmiss
    have key : ∀ t : List Agent, (∀ a ∈ t, a.agentId ≠ d.agentId) →
        Agents.upsert t d now = (t ++ [newAgent d now], 1) := by
      intro t
      induction t with
      | nil => intro _; rfl
      | cons a rest ih =>
        intro hm
        have ha : ¬ (a.agentId = d.agentId) := hm a (by simp)
        have ih' := ih (fun b hb => hm b (by simp [hb]))
        simp [Agents.upsert, ha, ih']
    exact ⟨key s hmiss, rfl, rfl⟩
  · intro l a r hs hl ha
    have key : ∀ t : List Agent, (∀ b ∈ t, b.agentId ≠ d.agentId) →
        Agents.upsert (t ++ a :: r) d now = (t ++ applyUpsert a d now :: r, 0) := by
      intro t
      induction t with
      | nil => intro _; simp [Agents.upsert, ha]
      | cons b rest ih =>
        intro hm
        have hb : ¬ (b.agentId = d.agentId) := hm b (by simp)
        have ih' := ih (fun c hc => hm c (by simp [hc]))
        simp [Agents.upsert, hb, ih']
    subst hs
    exact ⟨key l hl, rfl, rfl, rfl, rfl, rfl, rfl, rfl, rfl⟩

/-- An explicit witness instance of `upsert_keyed_by_agentId`: a two-step
run — insert a fresh record at time 3, then upsert the same `agentId`
at time 7 — keeps `createdAt = 3` and refreshes `updatedAt` to 7. -/
theorem upsert_keyed_by_agentId_witness :
    Agents.upsert []
        ⟨some "a1", some "Alice", some "+15550100", some "p1", true, []⟩ 3 =
      ([⟨some "a1", some "Alice", some "+15550100", some "p1", true, [], 3, 3⟩], 1) ∧
    Agents.upsert [⟨some "a1", some "Alice", some "+15550100", some "p1", true, [], 3, 3⟩]
        ⟨some "a1", some "Alicia", some "+15550101", some "p2", false, []⟩ 7 =
      ([⟨some "a1", some "Alicia", some "+15550101", some "p2", false, [], 3, 7⟩], 0) := by
  constructor
  · exact ((upsert_keyed_by_agentId []
      ⟨some "a1", some "Alice", some "+15550100", some "p1", true, []⟩ 3).1
      (by intro a ha; simp at ha)).1
  · exact ((upsert_keyed_by_agentId
      [⟨some "a1", some "Alice", some "+15550100", some "p1", true, [], 3, 3⟩]
      ⟨some "a1", some "Alicia", some "+15550101", some "p2", false, []⟩ 7).2
      [] ⟨some "a1", some "Alice", some "+15550100", some "p1", true, [], 3, 3⟩ []
      rfl (by intro b hb; simp at hb) rfl).1

/-- Response payload of the `delete_agent` tool
(`{ success, message }` serialized as text). -/
structure DeleteToolResp where
  success : Bool
  message : String
deriving DecidableEq, Repr

/-- The `delete_agent` case of the CallTool dispatcher: calls
`Agents.delete(args.agentId)` and reports `success` as
`deletedCount > 0` with a deleted / not-found message. -/
def delete_agent (store : List Agent) (agentId : Option String) :
    List Agent × DeleteToolResp :=
  let r := Agents.delete store agentId
  (r.1,
   { success := decide (r.2 > 0)
     message :=
       if r.2 > 0 then "Agent " ++ jshow agentId ++ " deleted"
       else "Agent " ++ jshow agentId ++ " not found" })

/-- Claim C7: `delete` removes the (first) matching record and returns
whether a record was removed; deleting a non-existent `agentId` leaves
the store unchanged with `deletedCount` 0, and the `delete_agent` tool
then reports `success: false` with a not-found message instead of
failing. -/
theorem delete_idempotent_and_tool (s : List Agent) (i : Option String) :
    ((∀ a ∈ s, a.agentId ≠ i) →
      Agents.delete s i = (s, 0) ∧
      delete_agent s i =
        (s, { success := false, message := "Agent " ++ jshow i ++ " not found" })) ∧
    (∀ l a r, s = l ++ a :: r → (∀ b ∈ l, b.agentId ≠ i) → a.agentId = i →
      Agents.delete s i = (l ++ r, 1) ∧
      delete_agent s i =
        (l ++ r, { success := true, message := "Agent " ++ jshow i ++ " deleted" })) := by
  constructor
  · intro hmiss
    have key : ∀ t : List Agent, (∀ a ∈ t, a.agentId ≠ i) →
        Agents.delete t i = (t, 0) := by
      intro t
      induction t with
      | nil => intro _; rfl
      | cons a rest ih =>
        intro hm
        have ha : ¬ (a.agentId = i) := hm a (by simp)
        have ih' := ih (fun b hb => hm b (by simp [hb]))
        simp [Agents.delete, ha, ih']
    have h := key s hmiss
    exact ⟨h, by simp [delete_agent, h]⟩
  · intro l a r hs hl ha
    have key : ∀ t : List Agent, (∀ b ∈ t, b.agentId ≠ i) →
        Agents.delete (t ++ a :: r) i = (t ++ r, 1) := by
      intro t
      induction t with
      | nil => intro _; simp [Agents.delete, ha]
      | cons b rest ih =>
        intro hm
        have hb : ¬ (b.agentId = i) := hm b (by simp)
        have ih' := ih (fun c hc => hm c (by simp [hc]))
        simp [Agents.delete, hb, ih']
    subst hs
    have h := key l hl
    exact ⟨h, by simp [delete_agent, h]⟩

/-- An explicit witness instance of `delete_idempotent_and_tool`:
deleting a missing id returns the store unchanged with a not-found
tool result; deleting a present id removes exactly that record. -/
theorem delete_idempotent_and_tool_witness :
    delete_agent [⟨some "a1", some "Alice", some "+15550100", some "p1", true, [], 0, 0⟩]
        (some "ghost") =
      ([⟨some "a1", some "Alice", some "+15550100", some "p1", true, [], 0, 0⟩],
       { success := false, message := "Agent ghost not found" }) ∧
    delete_agent [⟨some "a1", some "Alice", some "+15550100", some "p1", true, [], 0, 0⟩]
        (some "a1") =
      ([], { success := true, message := "Agent a1 deleted" }) := by
  constructor
  · exact ((delete_idempotent_and_tool
      [⟨some "a1", some "Alice", some "+15550100", some "p1", true, [], 0, 0⟩]
      (some "ghost")).1 (by intro a ha; simp at ha; simp [ha])).2
  · exact ((delete_idempotent_and_tool
      [⟨some "a1", some "Alice", some "+15550100", some "p1", true, [], 0, 0⟩]
      (some "a1")).2 [] ⟨some "a1", some "Alice", some "+15550100", some "p1", true, [], 0, 0⟩ []
      rfl (by intro b hb; simp at hb) rfl).2

/-- Arguments of `POST /api/create-agent` (destructured request body)
and of the `create_agent` tool — each field may be absent. -/
structure CreateAgentArgs where
  agentId : Option String
  agentName : Option String
  phoneNumber : Option String
  agentPrompt : Option String
  active : Option Bool
  metadata : Option (List (String × String))
deriving DecidableEq, Repr

/-- The object both the HTTP handler and the tool pass to
`Agents.upsert`: `active: args.active !== undefined ? args.active : true`
and `metadata: args.metadata || {}`. -/
def argsToData (args : CreateAgentArgs) : AgentData :=
  { agentId := args.agentId
    agentName := args.agentName
    phoneNumber := args.phoneNumber
    agentPrompt := args.agentPrompt
    active := args.active.getD true
    metadata := args.metadata.getD [] }

/-- Response of `POST /api/create-agent`: a 400 validation error or a
success envelope with the Created/Updated message. -/
inductive CreateAgentHttpResp
  | validationError (error : String)
  | created (message : String) (agentId : Option String)
deriving DecidableEq, Repr

/-- The `POST /api/create-agent` handler: rejects the request with a
400 error when any of `agentId`, `agentName`, `phoneNumber`,
`agentPrompt` is falsy, otherwise upserts and reports
Created/Updated from `upsertedCount`. -/
def createAgentRoute (store : List Agent) (args : CreateAgentArgs) (now : Nat) :
    List Agent × CreateAgentHttpResp :=
  if !jtruthy args.agentId || !jtruthy args.agentName ||
      !jtruthy args.phoneNumber || !jtruthy args.agentPrompt then
    (store, .validationError "agentId, agentName, phoneNumber, and agentPrompt are required")
  else
    let r := Agents.upsert store (argsToData args) now
    (r.1, .created (if r.2 > 0 then "Created" else "Updated") args.agentId)

/-- Response payload of the `create_agent` tool. -/
structure CreateAgentToolResp where
  success : Bool
  message : String
  agentId : Option String
  phoneNumber : Option String
deriving DecidableEq, Repr

/-- The `create_agent` case of the CallTool dispatcher: calls
`Agents.upsert` directly on the (possibly incomplete) arguments —
there is no validation stage. -/
def create_agent (store : List Agent) (args : CreateAgentArgs) (now : Nat) :
    List Agent × CreateAgentToolResp :=
  let r := Agents.upsert store (argsToData args) now
  (r.1,
   { success := true
     message :=
       if r.2 > 0 then "Agent " ++ jshow args.agentId ++ " created successfully"
       else "Agent " ++ jshow args.agentId ++ " updated successfully"
     agentId := args.agentId
     phoneNumber := args.phoneNumber })

/-- Counterexample to claim C2: invoking the `create_agent` tool with
`agentPrompt` missing does not fail with a ValidationError — it
reports success and mutates the store (a record is inserted into the
empty store). -/
theorem create_agent_tool_no_validation_cex :
    (create_agent []
        ⟨some "agent-1", some "Test Agent", some "+15550100", none, none, none⟩ 0).1 ≠ [] ∧
    (create_agent []
        ⟨some "agent-1", some "Test Agent", some "+15550100", none, none, none⟩ 0).2.success
      = true := by
  constructor
  · decide
  · rfl

/-- Claim C2 (amended): the HTTP `POST /api/create-agent` handler
rejects a request missing any required field with a client-error
response and leaves the store unchanged; the `create_agent` tool has no
validation stage and always performs the upsert on the given
arguments. -/
theorem createAgent_validation (store : List Agent) (args : CreateAgentArgs) (now : Nat)
    (h : jtruthy args.agentId = false ∨ jtruthy args.agentName = false ∨
         jtruthy args.phoneNumber = false ∨ jtruthy args.agentPrompt = false) :
    createAgentRoute store args now =
      (store,
       .validationError "agentId, agentName, phoneNumber, and agentPrompt are required") ∧
    (create_agent store args now).1 = (Agents.upsert store (argsToData args) now).1 := by
  constructor
  · have hb : (!jtruthy args.agentId || !jtruthy args.agentName ||
        !jtruthy args.phoneNumber || !jtruthy args.agentPrompt) = true := by
      rcases h with h | h | h | h <;> simp [h]
    simp [createAgentRoute, hb]
  · rfl

/-- An explicit witness instance of `createAgent_validation`: the HTTP
handler rejects a body missing `agentPrompt` over a non-empty store. -/
theorem createAgent_validation_witness :
    createAgentRoute [⟨some "a0", some "Old", some "+15550199", some "p0", true, [], 1, 1⟩]
        ⟨some "agent-1", some "Test Agent", some "+15550100", none, none, none⟩ 9 =
      ([⟨some "a0", some "Old", some "+15550199", some "p0", true, [], 1, 1⟩],
       .validationError "agentId, agentName, phoneNumber, and agentPrompt are required") := by
  exact (createAgent_validation
    [⟨some "a0", some "Old", some "+15550199", some "p0", true, [], 1, 1⟩]
    ⟨some "agent-1", some "Test Agent", some "+15550100", none, none, none⟩ 9
    (by right; right; right; rfl)).1

/-- Response of the `get_agent_by_phone` tool: the full agent record
plus its prompt on a hit, an error payload on a miss. -/
inductive GetAgentByPhoneResp
  | found (agent : Agent) (prompt : Option String)
  | missing (error : String)
deriving DecidableEq, Repr

/-- The `get_agent_by_phone` case of the CallTool dispatcher: a single
`Agents.getByPhoneNumber` call on the local store — no upstream fetch
appears in this case. -/
def get_agent_by_phone (store : List Agent) (phoneNumber : Option String) :
    GetAgentByPhoneResp :=
  match Agents.getByPhoneNumber store phoneNumber with
  | none => .missing ("No agent found for phone number " ++ jshow phoneNumber)
  | some agent => .found agent agent.agentPrompt

/-- Claim C6: the `get_agent_by_phone` tool is determined solely by the
local store's phone lookup (stores with equal lookup results give equal
responses, with no upstream request in the definition), returning the
matching record with its prompt on a hit and a not-found error payload
on a miss. -/
theorem get_agent_by_phone_local_only (s₁ s₂ : List Agent) (p : Option String)
    (h : Agents.getByPhoneNumber s₁ p = Agents.getByPhoneNumber s₂ p) :
    get_agent_by_phone s₁ p = get_agent_by_phone s₂ p ∧
    (∀ a, Agents.getByPhoneNumber s₁ p = some a →
      get_agent_by_phone s₁ p = .found a a.agentPrompt) ∧
    (Agents.getByPhoneNumber s₁ p = none →
      get_agent_by_phone s₁ p =
        .missing ("No agent found for phone number " ++ jshow p)) := by
  refine ⟨?_, ?_, ?_⟩
  · simp [get_agent_by_phone, h]
  · intro a ha
    simp [get_agent_by_phone, ha]
  · intro ha
    simp [get_agent_by_phone, ha]

/-- An explicit witness instance of `get_agent_by_phone_local_only`:
two stores that agree on the lookup of `+15550100` (one holding an
extra unrelated record) give the same found response. -/
theorem get_agent_by_phone_local_only_witness :
    get_agent_by_phone
        [⟨some "a1", some "Alice", some "+15550100", some "p1", true, [], 0, 0⟩]
        (some "+15550100") =
      get_agent_by_phone
        [⟨some "a1", some "Alice", some "+15550100", some "p1", true, [], 0, 0⟩,
         ⟨some "a2", some "Bob", some "+15550101", some "p2", false, [], 0, 0⟩]
        (some "+15550100") ∧
    get_agent_by_phone
        [⟨some "a1", some "Alice", some "+15550100", some "p1", true, [], 0, 0⟩]
        (some "+15550100") =
      .found ⟨some "a1", some "Alice", some "+15550100", some "p1", true, [], 0, 0⟩
        (some "p1") := by
  constructor
  · exact (get_agent_by_phone_local_only
      [⟨some "a1", some "Alice", some "+15550100", some "p1", true, [], 0, 0⟩]
      [⟨some "a1", some "Alice", some "+15550100", some "p1", true, [], 0, 0⟩,
       ⟨some "a2", some "Bob", some "+15550101", some "p2", false, [], 0, 0⟩]
      (some "+15550100") (by decide)).1
  · exact (get_agent_by_phone_local_only
      [⟨some "a1", some "Alice", some "+15550100", some "p1", true, [], 0, 0⟩]
      [⟨some "a1", some "Alice", some "+15550100", some "p1", true, [], 0, 0⟩]
      (some "+15550100") rfl).2.1
      ⟨some "a1", some "Alice", some "+15550100", some "p1", true, [], 0, 0⟩ (by decide)

/-- The per-agent projection exposed by `GET /api/agents`:
`{ agentId, agentName, phoneNumber }` only. -/
structure ListedAgent where
  agentId : Option String
  agentName : Option String
  phoneNumber : Option String
deriving DecidableEq, Repr

/-- The projection applied to each listed agent. -/
def listedFields (a : Agent) : ListedAgent :=
  { agentId := a.agentId, agentName := a.agentName, phoneNumber := a.phoneNumber }

/-- Response of `GET /api/agents`. -/
structure ListAgentsResp where
  success : Bool
  count : Nat
  agents : List ListedAgent
deriving DecidableEq, Repr

/-- The `GET /api/agents` handler: lists the active agents, exposing
only `agentId`, `agentName` and `phoneNumber` of each. -/
def listAgentsRoute (store : List Agent) : ListAgentsResp :=
  let agents := Agents.getAllActive store
  { success := true
    count := agents.length
    agents := agents.map listedFields }

/-- Claim C9: `GET /api/agents` lists only active agents and exposes
only their `agentId`, `agentName`, `phoneNumber`: two stores that agree
on that projection of their active records (however they differ in
prompts, metadata, timestamps or inactive records) produce identical
responses, and every listed entry is the projection of an active store
record. -/
theorem listAgents_only_active_fields (s₁ s₂ : List Agent)
    (h : (Agents.getAllActive s₁).map listedFields
       = (Agents.getAllActive s₂).map listedFields) :
    listAgentsRoute s₁ = listAgentsRoute s₂ ∧
    ∀ r ∈ (listAgentsRoute s₁).agents,
      ∃ a, a ∈ s₁ ∧ a.active = true ∧ r = listedFields a := by
  constructor
  · have hlen : (Agents.getAllActive s₁).length = (Agents.getAllActive s₂).length := by
      have hc := congrArg List.length h
      simpa using hc
    simp [listAgentsRoute, h, hlen]
  · intro r hr
    simp only [listAgentsRoute, List.mem_map] at hr
    obtain ⟨a, ha, rfl⟩ := hr
    rw [Agents.getAllActive, List.mem_filter] at ha
    exact ⟨a, ha.1, ha.2, rfl⟩

/-- An explicit witness instance of `listAgents_only_active_fields`:
two stores differing in `agentPrompt`, timestamps and an extra
inactive record give the same listing, which exposes no prompt. -/
theorem listAgents_only_active_fields_witness :
    listAgentsRoute
        [⟨some "a1", some "Alice", some "+15550100", some "secret prompt", true, [], 0, 0⟩,
         ⟨some "a2", some "Bob", some "+15550101", some "p2", false, [], 0, 0⟩] =
      listAgentsRoute
        [⟨some "a1", some "Alice", some "+15550100", some "other prompt", true,
          [("k", "v")], 5, 9⟩] ∧
    listAgentsRoute
        [⟨some "a1", some "Alice", some "+15550100", some "secret prompt", true, [], 0, 0⟩,
         ⟨some "a2", some "Bob", some "+15550101", some "p2", false, [], 0, 0⟩] =
      { success := true, count := 1,
        agents := [⟨some "a1", some "Alice", some "+15550100"⟩] } := by
  constructor
  · exact (listAgents_only_active_fields
      [⟨some "a1", some "Alice", some "+15550100", some "secret prompt", true, [], 0, 0⟩,
       ⟨some "a2", some "Bob", some "+15550101", some "p2", false, [], 0, 0⟩]
      [⟨some "a1", some "Alice", some "+15550100", some "other prompt", true,
        [("k", "v")], 5, 9⟩]
      (by decide)).1
  · rfl

/-- The JSON body of a successful upstream
`GET /api/prompts/by-phone/{phone}` call. -/
structure PromptData where
  success : Bool
  hospitalName : String
  systemPrompt : String
  doctors : String
  features : String
deriving DecidableEq, Repr

/-- Outcome of the upstream prompt fetch: a network error (the `fetch`
or `response.json()` throws) or a response with its `ok` flag and
parsed body. -/
inductive PromptFetch
  | netError
  | response (ok : Bool) (data : PromptData)
deriving DecidableEq, Repr

/-- Whether the upstream prompt lookup succeeded with a positive result
flag: `promptResponse.ok && promptData.success`. -/
def promptPositive : PromptFetch → Bool
  | .response true d => d.success
  | _ => false

/-- Response of `POST /api/get-agent-prompt`, one constructor per
`res....json(...)` site of the handler. -/
inductive AgentPromptResp
  | badRequest (error : String)
  | prompts (hospitalName agentPrompt doctors features : String)
  | agents (agentId agentName phoneNumber agentPrompt : Option String) (active : Bool)
  | notFound (error : String)
deriving DecidableEq, Repr

/-- HTTP status of each response shape (400 / 200 / 200 / 404). -/
def statusOf : AgentPromptResp → Nat
  | .badRequest _ => 400
  | .prompts _ _ _ _ => 200
  | .agents _ _ _ _ _ => 200
  | .notFound _ => 404

/-- The `success` field of each response shape. -/
def successOf : AgentPromptResp → Bool
  | .prompts _ _ _ _ => true
  | .agents _ _ _ _ _ => true
  | _ => false

/-- The `source` tag of each response shape. -/
def sourceOf : AgentPromptResp → Option String
  | .prompts _ _ _ _ => some "prompts"
  | .agents _ _ _ _ _ => some "agents"
  | _ => none

/-- The fallback tail of the `POST /api/get-agent-prompt` handler: the
local `Agents.getByPhoneNumber` lookup, answering the agents payload or
the 404 not-found response. -/
def agentsFallback (store : List Agent) (phoneNumber : Option String) :
    AgentPromptResp :=
  match Agents.getByPhoneNumber store phoneNumber with
  | none => .notFound ("No agent found for phone number " ++ jshow phoneNumber)
  | some a => .agents a.agentId a.agentName a.phoneNumber a.agentPrompt a.active

/-- The `POST /api/get-agent-prompt` handler: 400 on a falsy
`phoneNumber`; otherwise the upstream prompts lookup is tried first and
its payload returned when `ok && success`, and on any other upstream
outcome the handler silently falls back to the local store. -/
def getAgentPromptRoute (upstream : PromptFetch) (store : List Agent)
    (phoneNumber : Option String) : AgentPromptResp :=
  if !jtruthy phoneNumber then
    .badRequest "Phone number is required"
  else
    match upstream with
    | .response true d =>
      if d.success then
        .prompts d.hospitalName d.systemPrompt d.doctors d.features
      else
        agentsFallback store phoneNumber
    | _ => agentsFallback store phoneNumber

/-- Claim C1: with a truthy `phoneNumber`, the handler returns the
upstream payload tagged `source: prompts` exactly when the upstream
call succeeds with a positive result flag; on any upstream failure
(network error, non-ok response, or negative result flag) it falls back
to the local phone lookup, answering the agents payload on a hit and
the 404 not-found response only when both lookups miss. -/
theorem getAgentPrompt_fallback_chain (u : PromptFetch) (s : List Agent)
    (p : Option String) (hp : jtruthy p = true) :
    (∀ d, u = .response true d → d.success = true →
      getAgentPromptRoute u s p =
        .prompts d.hospitalName d.systemPrompt d.doctors d.features) ∧
    (promptPositive u = false →
      (∀ a, Agents.getByPhoneNumber s p = some a →
        getAgentPromptRoute u s p =
          .agents a.agentId a.agentName a.phoneNumber a.agentPrompt a.active) ∧
      (Agents.getByPhoneNumber s p = none →
        getAgentPromptRoute u s p =
          .notFound ("No agent found for phone number " ++ jshow p))) ∧
    (sourceOf (getAgentPromptRoute u s p) = some "prompts" ↔
      promptPositive u = true) := by
  have hfb : promptPositive u = false →
      getAgentPromptRoute u s p = agentsFallback s p := by
    intro hneg
    cases u with
    | netError => simp [getAgentPromptRoute, hp]
    | response ok d =>
      cases ok with
      | false => simp [getAgentPromptRoute, hp]
      | true =>
        have hd : d.success = false := by simpa [promptPositive] using hneg
        simp [getAgentPromptRoute, hp, hd]
  refine ⟨?_, ?_, ?_, ?_⟩
  · rintro d rfl hd
    simp [getAgentPromptRoute, hp, hd]
  · intro hneg
    constructor
    · intro a ha
      rw [hfb hneg]
      simp [agentsFallback, ha]
    · intro ha
      rw [hfb hneg]
      simp [agentsFallback, ha]
  · intro hsrc
    cases hpos : promptPositive u with
    | true => rfl
    | false =>
      rw [hfb hpos] at hsrc
      rw [agentsFallback] at hsrc
      cases hl : Agents.getByPhoneNumber s p <;>
        simp [hl, sourceOf] at hsrc
  · intro hpos
    cases u with
    | netError => simp [promptPositive] at hpos
    | response ok d =>
      cases ok with
      | false => simp [promptPositive] at hpos
      | true =>
        have hd : d.success = true := by simpa [promptPositive] using hpos
        simp [getAgentPromptRoute, hp, hd, sourceOf]

/-- An explicit witness instance of `getAgentPrompt_fallback_chain`:
the spec scenario — upstream unreachable (`netError`) and a matching
local record for `+12025551234` — yields the success response tagged
`source: agents` with the agent's name and prompt. -/
theorem getAgentPrompt_fallback_chain_witness :
    jtruthy (some "+12025551234") = true ∧
    getAgentPromptRoute .netError
        [⟨some "a1", some "City Clinic Agent", some "+12025551234",
          some "You are the clinic assistant", true, [], 0, 0⟩]
        (some "+12025551234") =
      .agents (some "a1") (some "City Clinic Agent") (some "+12025551234")
        (some "You are the clinic assistant") true ∧
    successOf
        (getAgentPromptRoute .netError
          [⟨some "a1", some "City Clinic Agent", some "+12025551234",
            some "You are the clinic assistant", true, [], 0, 0⟩]
          (some "+12025551234")) = true ∧
    sourceOf
        (getAgentPromptRoute .netError
          [⟨some "a1", some "City Clinic Agent", some "+12025551234",
            some "You are the clinic assistant", true, [], 0, 0⟩]
          (some "+12025551234")) = some "agents" := by
  have h := getAgentPrompt_fallback_chain .netError
    [⟨some "a1", some "City Clinic Agent", some "+12025551234",
      some "You are the clinic assistant", true, [], 0, 0⟩]
    (some "+12025551234") rfl
  have hagents := ((h.2.1 rfl).1
    ⟨some "a1", some "City Clinic Agent", some "+12025551234",
      some "You are the clinic assistant", true, [], 0, 0⟩ (by decide))
  exact ⟨rfl, hagents, by rw [hagents]; rfl, by rw [hagents]; rfl⟩

/-- Outcome of an upstream `fetch` + `response.json()`: the response
status with its parsed body, or a thrown error with its message. -/
inductive FetchResult
  | ok (status : Nat) (body : String)
  | err (msg : String)
deriving DecidableEq, Repr

/-- Body of a proxy route's reply: the upstream body relayed as-is, or
the `{ success: false, error }` object built in the catch block. -/
inductive RouteBody
  | relayed (data : String)
  | failure (error : String)
deriving DecidableEq, Repr

/-- The `GET /api/availability` handler: forwards the query string to
`GET {API_BASE_URL}/api/availability?...` and replies `res.json(data)`
(status left at the default 200); 500 with the error message when the
fetch throws. -/
def availabilityGetRoute (up : String → FetchResult) (query : String) :
    Nat × RouteBody :=
  match up query with
  | .ok _ data => (200, .relayed data)
  | .err m => (500, .failure m)

/-- The `GET /api/doctors` handler: 400 when `assignedPhoneNumber` is
falsy, otherwise forwards phone and `specialization` to
`GET {API_BASE_URL}/api/doctors/by-phone/{phone}?...` and replies
`res.json(data)` (status left at the default 200). -/
def doctorsGetRoute (up : Option String → Option String → FetchResult)
    (assignedPhoneNumber specialization : Option String) : Nat × RouteBody :=
  if !jtruthy assignedPhoneNumber then
    (400, .failure "assignedPhoneNumber query parameter is required")
  else
    match up assignedPhoneNumber specialization with
    | .ok _ data => (200, .relayed data)
    | .err m => (500, .failure m)

/-- The `POST /api/book-appointment` handler: forwards the JSON body to
`POST {API_BASE_URL}/api/availability/book` and replies
`res.status(response.status).json(data)` — upstream status and body
relayed. -/
def bookAppointmentRoute (up : String → FetchResult) (body : String) :
    Nat × RouteBody :=
  match up body with
  | .ok status data => (status, .relayed data)
  | .err m => (500, .failure m)

/-- The `POST /api/cancel-appointment` handler: forwards the JSON body
to `POST {API_BASE_URL}/api/availability/cancel` and replies
`res.status(response.status).json(data)`. -/
def cancelAppointmentRoute (up : String → FetchResult) (body : String) :
    Nat × RouteBody :=
  match up body with
  | .ok status data => (status, .relayed data)
  | .err m => (500, .failure m)

/-- Counterexample to claim C3: the `GET /api/availability` handler
does not relay the upstream status code — when the upstream replies
404, the client receives 200 (with the upstream body). -/
theorem availability_status_not_relayed_cex :
    availabilityGetRoute (fun _ => FetchResult.ok 404 "not-found-body")
        "date=2025-01-15" = (200, RouteBody.relayed "not-found-body") ∧
    availabilityGetRoute (fun _ => FetchResult.ok 404 "not-found-body")
        "date=2025-01-15" ≠ (404, RouteBody.relayed "not-found-body") := by
  constructor
  · rfl
  · decide

/-- Claim C3 (amended): the booking and cancellation routes forward the
request body and relay the upstream status code and body unchanged; the
availability and doctors routes forward the request parameters and
relay the upstream body, but always reply with status 200 when the
upstream call succeeds (only a thrown fetch gives a 500 error reply). -/
theorem proxy_routes_relay :
    (∀ (up : String → FetchResult) (body : String) (status : Nat) (data : String),
      up body = .ok status data →
      bookAppointmentRoute up body = (status, .relayed data)) ∧
    (∀ (up : String → FetchResult) (body : String) (status : Nat) (data : String),
      up body = .ok status data →
      cancelAppointmentRoute up body = (status, .relayed data)) ∧
    (∀ (up : String → FetchResult) (query : String) (status : Nat) (data : String),
      up query = .ok status data →
      availabilityGetRoute up query = (200, .relayed data)) ∧
    (∀ (up : Option String → Option String → FetchResult)
        (phone spec : Option String) (status : Nat) (data : String),
      jtruthy phone = true → up phone spec = .ok status data →
      doctorsGetRoute up phone spec = (200, .relayed data)) ∧
    (∀ (up : String → FetchResult) (body : String) (m : String),
      up body = .err m → bookAppointmentRoute up body = (500, .failure m)) ∧
    (∀ (up : String → FetchResult) (query : String) (m : String),
      up query = .err m → availabilityGetRoute up query = (500, .failure m)) := by
  refine ⟨?_, ?_, ?_, ?_, ?_, ?_⟩
  · intro up body status data h
    simp [bookAppointmentRoute, h]
  · intro up body status data h
    simp [cancelAppointmentRoute, h]
  · intro up query status data h
    simp [availabilityGetRoute, h]
  · intro up phone spec status data hp h
    simp [doctorsGetRoute, hp, h]
  · intro up body m h
    simp [bookAppointmentRoute, h]
  · intro up query m h
    simp [availabilityGetRoute, h]

/-- An explicit witness instance of `proxy_routes_relay`: a booking
forwarded with upstream status 201 is relayed as 201; an availability
query with upstream status 503 is replied as 200 with the body. -/
theorem proxy_routes_relay_witness :
    bookAppointmentRoute (fun _ => FetchResult.ok 201 "booked")
        "patientName=Jo" = (201, RouteBody.relayed "booked") ∧
    cancelAppointmentRoute (fun _ => FetchResult.ok 200 "cancelled")
        "appointmentId=7" = (200, RouteBody.relayed "cancelled") ∧
    availabilityGetRoute (fun _ => FetchResult.ok 503 "busy")
        "date=2025-01-15" = (200, RouteBody.relayed "busy") ∧
    doctorsGetRoute (fun _ _ => FetchResult.ok 503 "doctors")
        (some "+15550100") none = (200, RouteBody.relayed "doctors") := by
  refine ⟨?_, ?_, ?_, ?_⟩
  · exact proxy_routes_relay.1 (fun _ => FetchResult.ok 201 "booked")
      "patientName=Jo" 201 "booked" rfl
  · exact proxy_routes_relay.2.1 (fun _ => FetchResult.ok 200 "cancelled")
      "appointmentId=7" 200 "cancelled" rfl
  · exact proxy_routes_relay.2.2.1 (fun _ => FetchResult.ok 503 "busy")
      "date=2025-01-15" 503 "busy" rfl
  · exact proxy_routes_relay.2.2.2.1 (fun _ _ => FetchResult.ok 503 "doctors")
      (some "+15550100") none 503 "doctors" rfl rfl

/-- An appointment as returned by the upstream
`GET /api/appointments?phone=...` (with `metadata?.doctor_name`
flattened into an optional field). -/
structure Appointment where
  aptId : String
  date : String
  time : String
  status : String
  purpose : String
  doctor_name : Option String
deriving DecidableEq, Repr

/-- Parsed body of the upstream appointments response;
`appointments` may be absent (`data.appointments || []`). -/
structure AppointmentsData where
  appointments : Option (List Appointment)
deriving DecidableEq, Repr

/-- Outcome of the upstream appointments fetch. -/
inductive ApptFetch
  | ok (data : AppointmentsData)
  | err (msg : String)
deriving DecidableEq, Repr

/-- The reshaped appointment returned by the tool. -/
structure ApptOut where
  aptId : String
  date : String
  time : String
  doctorName : Option String
  status : String
  purpose : String
deriving DecidableEq, Repr

/-- Result payload of the `find_patient_appointments` tool. -/
inductive FPAResp
  | results (patientPhone : String) (count : Nat) (appointments : List ApptOut)
  | failure (error : String)
deriving DecidableEq, Repr

/-- The appointment list carried by a `find_patient_appointments`
result (empty on the error payload). -/
def fpaAppointments : FPAResp → List ApptOut
  | .results _ _ appts => appts
  | .failure _ => []

/-- The `find_patient_appointments` case of the CallTool dispatcher:
strips non-digits from `patientPhone`, queries
`GET {API_BASE_URL}/api/appointments?phone={cleanPhone}` (the returned
first component is the phone the fetch was issued with), and unless
`includeCompleted` is true filters the appointments to statuses
`scheduled` / `confirmed` before reshaping them. -/
def find_patient_appointments (up : String → ApptFetch) (patientPhone : String)
    (includeCompleted : Option Bool) : String × FPAResp :=
  let cleanPhone := digitsOnly patientPhone
  match up cleanPhone with
  | .err m => (cleanPhone, .failure ("Failed to find appointments: " ++ m))
  | .ok data =>
    let appointments := data.appointments.getD []
    let appointments :=
      if includeCompleted.getD false then appointments
      else appointments.filter
        (fun apt => apt.status == "scheduled" || apt.status == "confirmed")
    (cleanPhone,
     .results patientPhone appointments.length
       (appointments.map (fun apt =>
         { aptId := apt.aptId, date := apt.date, time := apt.time,
           doctorName := apt.doctor_name, status := apt.status,
           purpose := apt.purpose })))

/-- Claim C5: `find_patient_appointments` queries upstream with the
input phone stripped of all non-digit characters, and when
`includeCompleted` is omitted or false, no returned appointment has a
status outside scheduled/confirmed. -/
theorem find_patient_appointments_normalizes_and_filters
    (up : String → ApptFetch) (patientPhone : String)
    (includeCompleted : Option Bool)
    (hinc : includeCompleted.getD false = false) :
    (find_patient_appointments up patientPhone includeCompleted).1 =
      digitsOnly patientPhone ∧
    ∀ o ∈ fpaAppointments
        (find_patient_appointments up patientPhone includeCompleted).2,
      o.status = "scheduled" ∨ o.status = "confirmed" := by
  constructor
  · cases h : up (digitsOnly patientPhone) <;>
      simp [find_patient_appointments, h]
  · intro o ho
    cases h : up (digitsOnly patientPhone) with
    | err m =>
      simp [find_patient_appointments, h, fpaAppointments] at ho
    | ok data =>
      have heq : fpaAppointments
          (find_patient_appointments up patientPhone includeCompleted).2 =
          ((data.appointments.getD []).filter
            (fun apt => apt.status == "scheduled" || apt.status == "confirmed")).map
            (fun apt =>
              { aptId := apt.aptId, date := apt.date, time := apt.time,
                doctorName := apt.doctor_name, status := apt.status,
                purpose := apt.purpose }) := by
        simp [find_patient_appointments, h, hinc, fpaAppointments]
      rw [heq, List.mem_map] at ho
      obtain ⟨apt, hmem, rfl⟩ := ho
      rw [List.mem_filter] at hmem
      have hstat := hmem.2
      simp only [Bool.or_eq_true, beq_iff_eq] at hstat
      simpa using hstat

/-- An explicit witness instance of
`find_patient_appointments_normalizes_and_filters`: the spec scenario —
`patientPhone = "(202) 555-1234"`, `includeCompleted` omitted — queries
upstream with `"2025551234"` and drops the completed appointment. -/
theorem find_patient_appointments_witness :
    digitsOnly "(202) 555-1234" = "2025551234" ∧
    (find_patient_appointments
        (fun _ => ApptFetch.ok ⟨some
          [⟨"id1", "2025-01-15", "2:00 PM", "scheduled", "checkup", some "Dr. Smith"⟩,
           ⟨"id2", "2024-12-01", "9:00 AM", "completed", "followup", none⟩]⟩)
        "(202) 555-1234" none).1 = digitsOnly "(202) 555-1234" ∧
    fpaAppointments
        (find_patient_appointments
          (fun _ => ApptFetch.ok ⟨some
            [⟨"id1", "2025-01-15", "2:00 PM", "scheduled", "checkup", some "Dr. Smith"⟩,
             ⟨"id2", "2024-12-01", "9:00 AM", "completed", "followup", none⟩]⟩)
          "(202) 555-1234" none).2 =
      [⟨"id1", "2025-01-15", "2:00 PM", some "Dr. Smith", "scheduled", "checkup"⟩] := by
  refine ⟨by decide, ?_, by decide⟩
  exact (find_patient_appointments_normalizes_and_filters
    (fun _ => ApptFetch.ok ⟨some
      [⟨"id1", "2025-01-15", "2:00 PM", "scheduled", "checkup", some "Dr. Smith"⟩,
       ⟨"id2", "2024-12-01", "9:00 AM", "completed", "followup", none⟩]⟩)
    "(202) 555-1234" none rfl).1

/-- How far one `connectDB` connection attempt gets: the `connect` call
throws (`failConnect`), an index creation throws after
`db = client.db(...)` was already assigned (`failIndex`), or everything
succeeds (`ok`). -/
inductive ConnOutcome
  | ok
  | failConnect
  | failIndex
deriving DecidableEq, Repr

/-- Observable side effects of a `connectDB` call. -/
inductive DBEffect
  | connectAttempt
  | createIndex
deriving DecidableEq, Repr

/-- The module-level mutable handles `client` and `db` (the connection
handles are modelled by numeric identifiers, `none` = null). -/
structure DBState where
  client : Option Nat
  db : Option Nat
deriving DecidableEq, Repr

/-- Initial module state: `let client = null; let db = null`. -/
def initDBState : DBState := { client := none, db := none }

/-- `connectDB()`: with `db` already set it returns it at once (no
connection attempt, no index creation); otherwise it sets `client`,
connects, assigns `db = client.db(dbName)` and creates the three
indexes, rethrowing any error.  On `failIndex` the error is rethrown
although `db` was already assigned.  Returns the new state, the
returned/thrown value, and the effects performed. -/
def connectDB (st : DBState) (fresh : Nat) (out : ConnOutcome) :
    DBState × Except String Nat × List DBEffect :=
  match st.db with
  | some d => (st, .ok d, [])
  | none =>
    match out with
    | .failConnect =>
      ({ client := some fresh, db := none },
       .error "MongoDB connection error", [.connectAttempt])
    | .failIndex =>
      ({ client := some fresh, db := some fresh },
       .error "MongoDB index error", [.connectAttempt, .createIndex])
    | .ok =>
      ({ client := some fresh, db := some fresh }, .ok fresh,
       [.connectAttempt, .createIndex, .createIndex, .createIndex])

/-- `getDB()`: throws when `db` is unset, otherwise returns it. -/
def getDB (st : DBState) : Except String Nat :=
  match st.db with
  | none => .error "Database not initialized. Call connectDB() first."
  | some d => .ok d

/-- `closeDB()`: when `client` is set, closes it and nulls both
handles; otherwise does nothing. -/
def closeDB (st : DBState) : DBState :=
  if st.client.isSome then { client := none, db := none } else st

/-- A lifecycle event: one `connectDB` call (with the environment's
outcome and a fresh handle id) or one `closeDB` call. -/
inductive DBEvent
  | connect (fresh : Nat) (out : ConnOutcome)
  | close
deriving DecidableEq, Repr

/-- Run a sequence of lifecycle events, collecting each `connectDB`
call's returned/thrown value. -/
def runDB : DBState → List DBEvent → DBState × List (Except String Nat)
  | st, [] => (st, [])
  | st, DBEvent.connect f o :: evs =>
    let c := connectDB st f o
    let r := runDB c.1 evs
    (r.1, c.2.1 :: r.2)
  | st, DBEvent.close :: evs => runDB (closeDB st) evs

/-- Specification-side characterization (for the amended claim C10):
whether, starting from handle state `b`, some `connectDB` call since
the last `closeDB` reached the `db` assignment (i.e. had any outcome
other than `failConnect`). -/
def dbEstablishedFrom (b : Bool) (evs : List DBEvent) : Bool :=
  evs.foldl
    (fun b e =>
      match e with
      | DBEvent.close => false
      | DBEvent.connect _ o => b || (o != ConnOutcome.failConnect))
    b

/-- `dbEstablishedFrom` from the initial (unconnected) state. -/
def dbEstablished (evs : List DBEvent) : Bool :=
  dbEstablishedFrom false evs

/-- Counterexample to claim C10: after a single `connectDB` call that
fails during index creation, no `connectDB` call has succeeded (the
only call threw), yet `getDB` does not throw — it returns the handle
the failed call left behind. -/
theorem connectDB_failIndex_getDB_cex :
    (runDB initDBState [DBEvent.connect 1 ConnOutcome.failIndex]).2 =
      [Except.error "MongoDB index error"] ∧
    getDB (runDB initDBState [DBEvent.connect 1 ConnOutcome.failIndex]).1 =
      Except.ok 1 := by
  constructor
  · rfl
  · rfl

/-- Claim C10 (amended): `connectDB` is idempotent — once the `db`
handle is set, every further call returns the same handle with no
connection attempt and no index creation — and `getDB` throws exactly
when no `connectDB` call since the last `closeDB` has set the handle
(reached the `db` assignment; a call that fails creating indexes still
sets it). -/
theorem connectDB_idempotent_getDB :
    (∀ (st : DBState) (fresh : Nat) (out : ConnOutcome) (d : Nat),
      st.db = some d → connectDB st fresh out = (st, Except.ok d, [])) ∧
    (∀ evs : List DBEvent,
      (getDB (runDB initDBState evs).1 =
        Except.error "Database not initialized. Call connectDB() first.") ↔
      dbEstablished evs = false) := by
  have key : ∀ (evs : List DBEvent) (st : DBState),
      (st.db.isSome = true → st.client.isSome = true) →
      (runDB st evs).1.db.isSome = dbEstablishedFrom st.db.isSome evs := by
    intro evs
    induction evs with
    | nil => intro st _; rfl
    | cons e evs ih =>
      intro st hinv
      cases e with
      | close =>
        show (runDB (closeDB st) evs).1.db.isSome = _
        by_cases hc : st.client.isSome = true
        · have h1 : closeDB st = { client := none, db := none } := by
            simp [closeDB, hc]
          rw [h1]
          have h2 := ih { client := none, db := none } (by intro h; simp at h)
          simpa [dbEstablishedFrom] using h2
        · have hcf : st.client.isSome = false := by
            cases hcc : st.client.isSome
            · rfl
            · exact absurd hcc hc
          have hdb : st.db.isSome = false := by
            cases hd : st.db.isSome
            · rfl
            · rw [hinv hd] at hcf; exact absurd hcf (by simp)
          have h1 : closeDB st = st := by simp [closeDB, hcf]
          rw [h1]
          have h2 := ih st hinv
          rw [h2]
          simp [dbEstablishedFrom, hdb]
      | connect f o =>
        show (runDB (connectDB st f o).1 evs).1.db.isSome = _
        cases hdb : st.db with
        | some d =>
          have hc : (connectDB st f o).1 = st := by simp [connectDB, hdb]
          rw [hc]
          have h2 := ih st hinv
          rw [h2]
          have hds : st.db.isSome = true := by simp [hdb]
          simp [dbEstablishedFrom, hds]
        | none =>
          have hds : st.db.isSome = false := by simp [hdb]
          cases o with
          | failConnect =>
            have hc : (connectDB st f ConnOutcome.failConnect).1 =
                { client := some f, db := none } := by
              simp [connectDB, hdb]
            rw [hc]
            have h2 := ih { client := some f, db := none } (by intro h; simp at h)
            rw [h2]
            simp [dbEstablishedFrom, hds]
          | failIndex =>
            have hc : (connectDB st f ConnOutcome.failIndex).1 =
                { client := some f, db := some f } := by
              simp [connectDB, hdb]
            rw [hc]
            have h2 := ih { client := some f, db := some f } (by intro _; rfl)
            rw [h2]
            simp [dbEstablishedFrom, hds]
            rfl
          | ok =>
            have hc : (connectDB st f ConnOutcome.ok).1 =
                { client := some f, db := some f } := by
              simp [connectDB, hdb]
            rw [hc]
            have h2 := ih { client := some f, db := some f } (by intro _; rfl)
            rw [h2]
            simp [dbEstablishedFrom, hds]
            rfl
  constructor
  · intro st fresh out d hd
    simp [connectDB, hd]
  · intro evs
    have hiso : (runDB initDBState evs).1.db.isSome = dbEstablished evs := by
      have h := key evs initDBState (by intro h; simp [initDBState] at h)
      simpa [initDBState, dbEstablished] using h
    constructor
    · intro herr
      cases hd : (runDB initDBState evs).1.db with
      | none => rw [hd] at hiso; simpa using hiso.symm
      | some d => simp [getDB, hd] at herr
    · intro hest
      rw [hest] at hiso
      cases hd : (runDB initDBState evs).1.db with
      | none => simp [getDB, hd]
      | some d => rw [hd] at hiso; simp at hiso

/-- An explicit witness instance of `connectDB_idempotent_getDB`: a
second `connectDB` call on an established state is a no-op returning
the same handle, and after connect-then-close `getDB` throws again. -/
theorem connectDB_idempotent_getDB_witness :
    connectDB { client := some 1, db := some 1 } 2 ConnOutcome.ok =
      ({ client := some 1, db := some 1 }, Except.ok 1, []) ∧
    ((getDB (runDB initDBState [DBEvent.connect 1 ConnOutcome.ok, DBEvent.close]).1 =
        Except.error "Database not initialized. Call connectDB() first.") ↔
      dbEstablished [DBEvent.connect 1 ConnOutcome.ok, DBEvent.close] = false) ∧
    dbEstablished [DBEvent.connect 1 ConnOutcome.ok, DBEvent.close] = false := by
  refine ⟨?_, ?_, rfl⟩
  · exact connectDB_idempotent_getDB.1 { client := some 1, db := some 1 } 2
      ConnOutcome.ok 1 rfl
  · exact connectDB_idempotent_getDB.2
      [DBEvent.connect 1 ConnOutcome.ok, DBEvent.close]

/-- An explicit witness instance of `getAllActive_exactly_active`: the
active record is listed, via the right-to-left direction at a concrete
store. -/
theorem getAllActive_exactly_active_witness :
    (⟨some "a1", some "Alice", some "+15550100", some "p1", true, [], 0, 0⟩ : Agent) ∈
      Agents.getAllActive
        [⟨some "a2", some "Bob", some "+15550101", some "p2", false, [], 0, 0⟩,
         ⟨some "a1", some "Alice", some "+15550100", some "p1", true, [], 0, 0⟩] :=
  (getAllActive_exactly_active
    [⟨some "a2", some "Bob", some "+15550101", some "p2", false, [], 0, 0⟩,
     ⟨some "a1", some "Alice", some "+15550100", some "p1", true, [], 0, 0⟩]
    ⟨some "a1", some "Alice", some "+15550100", some "p1", true, [], 0, 0⟩).mpr
    ⟨by decide, rfl⟩
